import Mathlib

/-!
Shallow embedding of the StockMaster inventory application (client pages
OrderNew.tsx, ReceiptNew, TransferNew, Products, Analytics, together with the
supabase schema migrations that define the stock table).

Quantities and prices are DECIMAL/NUMERIC columns manipulated as JavaScript
numbers; the claims under study are exact arithmetic identities, so they are
modelled as Lean integers.  The stock table column available_quantity is a
stored generated column, GENERATED ALWAYS AS (quantity - reserved_quantity)
(migration 20251122063827, line 193); the client receives it as a possibly
null field, hence Option Int, and every write of quantity regenerates it.
Row ids (UUID primary keys) are modelled as naturals.
-/

namespace StockMaster

/-- A row of the public.stock table as the client sees it (migration
20251122063827 lines 186-196): quantity on hand, reserved quantity, and the
stored generated column available_quantity. -/
structure StockRow where
  id : Nat
  product_id : String
  warehouse_id : String
  location_id : Option String
  quantity : Int
  reserved_quantity : Int
  available_quantity : Option Int
  deriving DecidableEq, Repr

/-- JavaScript logical-or on a numeric field that may be null, as used in
OrderNew.tsx line 202 and 216 (a || b): the right operand is taken when the
left is null or exactly 0 (both falsy in JavaScript). -/
def jsOr (a : Option Int) (q : Int) : Int :=
  match a with
  | none => q
  | some v => if v = 0 then q else v

/-- OrderNew.tsx line 216: const availableQty = stock.available_quantity || stock.quantity. -/
def availOrQty (s : StockRow) : Int :=
  jsOr s.available_quantity s.quantity

/-- A supabase update of the quantity column keyed by row id
(OrderNew.tsx lines 220-225, ReceiptNew lines 166-171): every row whose id
matches receives the given quantity, and the database regenerates the stored
column available_quantity = quantity - reserved_quantity. -/
def updateQuantity (store : List StockRow) (rowId : Nat) (q : Int) : List StockRow :=
  store.map fun t =>
    if t.id = rowId then
      { t with quantity := q, available_quantity := some (q - t.reserved_quantity) }
    else t

/-- A line item of the order form (OrderNew.tsx interface OrderItem). -/
structure OrderItem where
  product_id : String
  quantity : Int
  unit_price : Int
  notes : String
  deriving DecidableEq, Repr

/-- Validity filter applied by every submit handler
(OrderNew.tsx line 139): item.product_id truthy (nonempty) and quantity > 0. -/
def isValidItem (i : OrderItem) : Bool :=
  i.product_id != "" && decide (0 < i.quantity)

/-- Errors thrown by the sales-order stock loop (OrderNew.tsx lines 195-208);
the thrown strings name the product, the available total and the required
quantity, modelled structurally. -/
inductive SellError
  | noStock (product : String)
  | insufficientStock (product : String) (available required : Int)
  deriving DecidableEq, Repr

/-- The fetch filter of OrderNew.tsx lines 189-193:
stock rows with eq product_id and eq warehouse_id. -/
def matchesSell (pid wh : String) (s : StockRow) : Bool :=
  s.product_id == pid && s.warehouse_id == wh

/-- OrderNew.tsx lines 201-203: totalAvailable is a reduce over the fetched
rows adding available_quantity || quantity, starting from 0. -/
def totalAvailable (rows : List StockRow) : Int :=
  rows.foldl (fun sum s => sum + availOrQty s) 0

/-- The deduction loop of OrderNew.tsx lines 213-229, viewed as the sequence
of updates it issues: walk the fetched rows in order; stop when remainingQty
is no longer positive; per row deductQty = min remainingQty availableQty, and
only a positive deductQty produces a write and decrements remainingQty.
Each emitted pair is the fetched row together with its deductQty (the write
sets that row's quantity to the fetched quantity minus deductQty). -/
def deducts : List StockRow → Int → List (StockRow × Int)
  | [], _ => []
  | s :: rest, remainingQty =>
    if remainingQty ≤ 0 then []
    else
      let availableQty := availOrQty s
      let deductQty := min remainingQty availableQty
      if 0 < deductQty then (s, deductQty) :: deducts rest (remainingQty - deductQty)
      else deducts rest remainingQty

/-- One write of the deduction loop (OrderNew.tsx lines 220-225): set the
matched row's quantity to the fetched quantity minus deductQty. -/
def applyDeduct (store : List StockRow) (u : StockRow × Int) : List StockRow :=
  updateQuantity store u.1.id (u.1.quantity - u.2)

/-- One iteration of the per-item sales loop (OrderNew.tsx lines 187-230):
fetch the stock rows for (product, warehouse); throw if none; compute
totalAvailable and throw the insufficient-stock error if it is below the
requested quantity; otherwise execute the greedy deduction writes.
On a throw the store is returned unchanged (the throw precedes every write
of this item). -/
def sellItem (store : List StockRow) (warehouseId : String) (item : OrderItem) :
    List StockRow × Option SellError :=
  let stockRecords := store.filter (matchesSell item.product_id warehouseId)
  if stockRecords.length = 0 then
    (store, some (SellError.noStock item.product_id))
  else
    let ta := totalAvailable stockRecords
    if ta < item.quantity then
      (store, some (SellError.insufficientStock item.product_id ta item.quantity))
    else
      ((deducts stockRecords item.quantity).foldl applyDeduct store, none)

/-- The for-loop over validItems of OrderNew.tsx lines 187-230: items are
processed in list order; a thrown error aborts the remaining items and leaves
the store as it stood at the throw. -/
def sellLoop (warehouseId : String) : List StockRow → List OrderItem →
    List StockRow × Option SellError
  | store, [] => (store, none)
  | store, item :: rest =>
    match sellItem store warehouseId item with
    | (st, some e) => (st, some e)
    | (st, none) => sellLoop warehouseId st rest

/-- A row of the orders table, restricted to the fields the submit handler
writes (OrderNew.tsx lines 160-171). -/
structure OrderRow where
  id : Nat
  order_number : String
  order_type : String
  created_by : String
  deriving DecidableEq, Repr

/-- A row of the order_items table (OrderNew.tsx lines 176-181). -/
structure OrderItemRow where
  order_id : Nat
  product_id : String
  quantity : Int
  unit_price : Int
  deriving DecidableEq, Repr

/-- The slice of the remote store touched by OrderNew.handleSubmit, with the
id supply for inserted orders. -/
structure OrdersDB where
  stock : List StockRow
  orders : List OrderRow
  order_items : List OrderItemRow
  nextOrderId : Nat
  deriving DecidableEq, Repr

/-- Rejections of OrderNew.handleSubmit: the two toast validations
(lines 139-157) and the errors thrown by the stock loop. -/
inductive SubmitError
  | noValidItems
  | noWarehouse
  | sell (e : SellError)
  deriving DecidableEq, Repr

/-- OrderNew.tsx handleSubmit (lines 130-251): filter validItems, reject when
none; for sales orders reject when no warehouse is selected; insert the order
row, insert one order_items row per valid item, then, for sales orders with a
warehouse, run the stock deduction loop over the valid items.  A loop error
leaves the already-inserted order and order_items rows and the stock writes
performed so far in place (no rollback). -/
def orderSubmit (db : OrdersDB) (orderType warehouseId orderNumber uid : String)
    (items : List OrderItem) : OrdersDB × Option SubmitError :=
  let validItems := items.filter isValidItem
  if validItems.length = 0 then (db, some SubmitError.noValidItems)
  else if orderType = "sales" ∧ warehouseId = "" then (db, some SubmitError.noWarehouse)
  else
    let oid := db.nextOrderId
    let db1 : OrdersDB :=
      { db with
        orders := db.orders ++ [⟨oid, orderNumber, orderType, uid⟩]
        order_items := db.order_items ++
          validItems.map (fun i => ⟨oid, i.product_id, i.quantity, i.unit_price⟩)
        nextOrderId := oid + 1 }
    if orderType = "sales" ∧ warehouseId ≠ "" then
      let r := sellLoop warehouseId db1.stock validItems
      ({ db1 with stock := r.1 }, r.2.map SubmitError.sell)
    else (db1, none)

/-- A line item of the receipt form (ReceiptNew interface ReceiptItem);
location_id is a select value, empty string when unset. -/
structure ReceiptItem where
  product_id : String
  location_id : String
  quantity : Int
  notes : String
  deriving DecidableEq, Repr

/-- ReceiptNew line 116: same validity filter as orders. -/
def isValidReceiptItem (i : ReceiptItem) : Bool :=
  i.product_id != "" && decide (0 < i.quantity)

/-- The stock query filter of ReceiptNew lines 151-161: eq product_id,
eq warehouse_id, and location_id equal to the item's location when one is
selected, null otherwise. -/
def matchesReceipt (item : ReceiptItem) (warehouseId : String) (s : StockRow) : Bool :=
  s.product_id == item.product_id && s.warehouse_id == warehouseId
    && s.location_id == (if item.location_id = "" then none else some item.location_id)

/-- ReceiptNew lines 150-181: look up the stock row for the item's
(product, warehouse, location-or-null) — maybeSingle, the first match under
the uniqueness constraint of the stock table; when found, write back
existing.quantity + item.quantity to that row; otherwise insert a new row
with quantity = item.quantity and reserved_quantity = 0 (its generated
available_quantity equals the quantity). -/
def receiveStock (store : List StockRow) (warehouseId : String) (item : ReceiptItem)
    (freshId : Nat) : List StockRow :=
  match store.find? (matchesReceipt item warehouseId) with
  | some existingStock =>
      updateQuantity store existingStock.id (existingStock.quantity + item.quantity)
  | none =>
      store ++ [⟨freshId, item.product_id, warehouseId,
        (if item.location_id = "" then none else some item.location_id),
        item.quantity, 0, some item.quantity⟩]

/-- A row of the receipts table (ReceiptNew lines 127-136). -/
structure ReceiptRow where
  id : Nat
  receipt_number : String
  warehouse_id : String
  created_by : String
  deriving DecidableEq, Repr

/-- A row of the receipt_items table (ReceiptNew lines 142-146);
location_id is null-coalesced from the empty select value. -/
structure ReceiptItemRow where
  receipt_id : Nat
  product_id : String
  location_id : Option String
  quantity : Int
  deriving DecidableEq, Repr

/-- The slice of the remote store touched by ReceiptNew.handleSubmit,
with id supplies for inserted receipts and stock rows. -/
structure ReceiptsDB where
  stock : List StockRow
  receipts : List ReceiptRow
  receipt_items : List ReceiptItemRow
  nextReceiptId : Nat
  nextStockId : Nat
  deriving DecidableEq, Repr

/-- ReceiptNew lines 141-182: per valid item, insert the receipt_items row,
then update or create the stock record. -/
def receiveItems (warehouseId : String) (rid : Nat) :
    ReceiptsDB → List ReceiptItem → ReceiptsDB
  | db, [] => db
  | db, item :: rest =>
    let loc : Option String := if item.location_id = "" then none else some item.location_id
    let db1 : ReceiptsDB :=
      { db with
        receipt_items := db.receipt_items ++ [⟨rid, item.product_id, loc, item.quantity⟩]
        stock := receiveStock db.stock warehouseId item db.nextStockId
        nextStockId := db.nextStockId + 1 }
    receiveItems warehouseId rid db1 rest

/-- ReceiptNew.handleSubmit (lines 99-200): reject when no warehouse is
selected, then filter validItems and reject when none remain; insert the
receipt row and process each valid item in order. -/
def receiptSubmit (db : ReceiptsDB) (warehouseId receiptNumber uid : String)
    (items : List ReceiptItem) : ReceiptsDB × Option SubmitError :=
  if warehouseId = "" then (db, some SubmitError.noWarehouse)
  else
    let validItems := items.filter isValidReceiptItem
    if validItems.length = 0 then (db, some SubmitError.noValidItems)
    else
      let rid := db.nextReceiptId
      let db1 : ReceiptsDB :=
        { db with
          receipts := db.receipts ++ [⟨rid, receiptNumber, warehouseId, uid⟩]
          nextReceiptId := rid + 1 }
      (receiveItems warehouseId rid db1 validItems, none)

/-- A line item of the transfer form (TransferNew interface TransferItem);
the two location selects hold the empty string when unset. -/
structure TransferItem where
  product_id : String
  from_location_id : String
  to_location_id : String
  quantity : Int
  notes : String
  deriving DecidableEq, Repr

/-- TransferNew line 138: same validity filter as orders. -/
def isValidTransferItem (i : TransferItem) : Bool :=
  i.product_id != "" && decide (0 < i.quantity)

/-- A row of the transfers table (TransferNew lines 149-159). -/
structure TransferRow where
  id : Nat
  transfer_number : String
  from_warehouse_id : String
  to_warehouse_id : String
  created_by : String
  deriving DecidableEq, Repr

/-- A row of the transfer_items table (TransferNew lines 164-171). -/
structure TransferItemRow where
  transfer_id : Nat
  product_id : String
  from_location_id : Option String
  to_location_id : Option String
  quantity : Int
  deriving DecidableEq, Repr

/-- The slice of the remote store visible to TransferNew.handleSubmit.
The stock table is included to state frame conditions. -/
structure TransfersDB where
  stock : List StockRow
  transfers : List TransferRow
  transfer_items : List TransferItemRow
  nextTransferId : Nat
  deriving DecidableEq, Repr

/-- Rejections of TransferNew.handleSubmit (lines 120-146). -/
inductive TransferError
  | missingWarehouse
  | sameWarehouse
  | noValidItems
  deriving DecidableEq, Repr

/-- TransferNew.handleSubmit (lines 112-191): reject when either warehouse is
unselected; reject when the two warehouses are equal; filter validItems and
reject when none remain; otherwise insert the transfer row and one
transfer_items row per valid item.  No stock row is read or written. -/
def transferSubmit (db : TransfersDB) (fromWarehouseId toWarehouseId transferNumber uid : String)
    (items : List TransferItem) : TransfersDB × Option TransferError :=
  if fromWarehouseId = "" ∨ toWarehouseId = "" then (db, some TransferError.missingWarehouse)
  else if fromWarehouseId = toWarehouseId then (db, some TransferError.sameWarehouse)
  else
    let validItems := items.filter isValidTransferItem
    if validItems.length = 0 then (db, some TransferError.noValidItems)
    else
      let tid := db.nextTransferId
      ({ db with
         transfers := db.transfers ++
           [⟨tid, transferNumber, fromWarehouseId, toWarehouseId, uid⟩]
         transfer_items := db.transfer_items ++ validItems.map (fun i =>
           ⟨tid, i.product_id,
            (if i.from_location_id = "" then none else some i.from_location_id),
            (if i.to_location_id = "" then none else some i.to_location_id),
            i.quantity⟩)
         nextTransferId := tid + 1 }, none)

/-- A row of the products table, restricted to its id (only the id drives the
delete flow under study). -/
structure ProductRow where
  id : String
  name : String
  deriving DecidableEq, Repr

/-- The slice of the remote store consulted and mutated by
Products.handleDeleteConfirm. -/
structure ProductsDB where
  products : List ProductRow
  stock : List StockRow
  order_items : List OrderItemRow
  receipt_items : List ReceiptItemRow
  transfer_items : List TransferItemRow
  deriving DecidableEq, Repr

/-- Rejections of Products.handleDeleteConfirm. -/
inductive DeleteError
  | usedInOrders
  | usedInReceipts
  | usedInTransfers
  deriving DecidableEq, Repr

/-- Products.handleDeleteConfirm (Products page, TransferNew.tsx bundle lines
582-664): probe order_items, receipt_items and transfer_items for any row
referencing the product and reject if one exists; otherwise delete the
product's stock rows, then delete the product row. -/
def handleDeleteConfirm (db : ProductsDB) (pid : String) : ProductsDB × Option DeleteError :=
  if db.order_items.any (fun i => i.product_id == pid) then
    (db, some DeleteError.usedInOrders)
  else if db.receipt_items.any (fun i => i.product_id == pid) then
    (db, some DeleteError.usedInReceipts)
  else if db.transfer_items.any (fun i => i.product_id == pid) then
    (db, some DeleteError.usedInTransfers)
  else
    ({ db with
       stock := db.stock.filter (fun s => !(s.product_id == pid))
       products := db.products.filter (fun p => !(p.id == pid)) }, none)

/-- An order_items row as fetched by the analytics page (quantity and
unit_price of a sales-order line). -/
structure SalesOrderItem where
  quantity : Int
  unit_price : Int
  deriving DecidableEq, Repr

/-- A sales order as fetched by Analytics.fetchSalesTrend: its order_date
decomposed into calendar year and 1-based month (the code derives these via
getFullYear and getMonth() + 1), with its nested order_items. -/
structure SalesOrder where
  id : Nat
  year : Nat
  month : Nat
  order_items : List SalesOrderItem
  deriving DecidableEq, Repr

/-- Two-digit zero padding, String(n).padStart(2, "0") for n < 100. -/
def pad2 (n : Nat) : String :=
  if n < 10 then "0" ++ toString n else toString n

/-- Analytics.fetchSalesTrend line 108: the grouping key
year-month built from the order date. -/
def monthKey (o : SalesOrder) : String :=
  toString o.year ++ "-" ++ pad2 o.month

/-- The per-month accumulator of Analytics.fetchSalesTrend lines 104-121. -/
structure MonthAgg where
  revenue : Int
  orders : Nat
  deriving DecidableEq, Repr

/-- The inner forEach of Analytics.fetchSalesTrend lines 116-120: each line
item contributes quantity times unit_price to the month's revenue. -/
def orderRevenue (o : SalesOrder) : Int :=
  o.order_items.foldl (fun acc i => acc + i.quantity * i.unit_price) 0

/-- One step of the outer forEach of Analytics.fetchSalesTrend lines 106-121:
initialise the month's accumulator on first sight (JavaScript object insertion
order kept as list order), bump its order count, and add the order's line-item
revenues. -/
def accumOrder (monthlyData : List (String × MonthAgg)) (o : SalesOrder) :
    List (String × MonthAgg) :=
  let key := monthKey o
  match monthlyData.lookup key with
  | some agg =>
      monthlyData.map (fun kv =>
        if kv.1 = key then (key, ⟨agg.revenue + orderRevenue o, agg.orders + 1⟩) else kv)
  | none => monthlyData ++ [(key, ⟨orderRevenue o, 1⟩)]

/-- The monthlyData map built by Analytics.fetchSalesTrend lines 102-121
(the subsequent steps re-label the key for display and sort, leaving each
month's revenue and order count unchanged; Math.round is the identity on the
integer revenues modelled here). -/
def salesTrendData (orders : List SalesOrder) : List (String × MonthAgg) :=
  orders.foldl accumOrder []

/-- Total on-hand quantity across a list of stock rows. -/
def sumQty (store : List StockRow) : Int :=
  (store.map StockRow.quantity).sum

/-- Total available quantity across a list of stock rows, computed by the
formula of the generated column (quantity - reserved_quantity). -/
def sumAvail (store : List StockRow) : Int :=
  (store.map (fun s => s.quantity - s.reserved_quantity)).sum

/-- The ids of a list of stock rows. -/
def storeIds (store : List StockRow) : List Nat :=
  store.map StockRow.id

/-- Database consistency of one stock row: the stored generated column holds
quantity - reserved_quantity (migration 20251122063827 line 193), and both
quantities are nonnegative (every insert and every deduction of the reviewed
flows keeps them so). -/
def RowWF (s : StockRow) : Prop :=
  s.available_quantity = some (s.quantity - s.reserved_quantity)
    ∧ 0 ≤ s.quantity ∧ 0 ≤ s.reserved_quantity

/-- Database consistency of the stock table: every row consistent and ids
(primary keys) pairwise distinct. -/
def StoreWF (store : List StockRow) : Prop :=
  (∀ s ∈ store, RowWF s) ∧ (storeIds store).Nodup

/-- Freshness bound for the id supply: every stock row id is below it. -/
def IdsBound (store : List StockRow) (n : Nat) : Prop :=
  ∀ i ∈ storeIds store, i < n

instance (s : StockRow) : Decidable (RowWF s) := by
  unfold RowWF
  infer_instance

instance (store : List StockRow) : Decidable (StoreWF store) := by
  unfold StoreWF
  infer_instance

instance (store : List StockRow) (n : Nat) : Decidable (IdsBound store n) := by
  unfold IdsBound
  infer_instance

/-- Modelled from the spec for a refinement comparison only (spec line,
Sell step 2): total_available = the sum of row.available_quantity ?? row.quantity,
where ?? is nullish coalescing (the right operand is taken only when the left
is null).  The code under test uses logical-or instead; see the C4 theorems. -/
def specTotalAvailable (rows : List StockRow) : Int :=
  (rows.map (fun s => s.available_quantity.getD s.quantity)).sum

/-- The combined existence probe of Products.handleDeleteConfirm: some
order_items, receipt_items or transfer_items row references the product. -/
def referencedBy (db : ProductsDB) (pid : String) : Bool :=
  db.order_items.any (fun i => i.product_id == pid)
    || db.receipt_items.any (fun i => i.product_id == pid)
    || db.transfer_items.any (fun i => i.product_id == pid)

/-- Stock rows of the two-location sell scenario from the specification:
warehouse W holds product P at locA with quantity 5 and at locB with
quantity 3, nothing reserved. -/
def stockLocA : StockRow := ⟨1, "P", "W", some "locA", 5, 0, some 5⟩

/-- Second row of the two-location sell scenario. -/
def stockLocB : StockRow := ⟨2, "P", "W", some "locB", 3, 0, some 3⟩

/-- Stock row used by the multi-item rejection example: product A, 5 on hand. -/
def rowA : StockRow := ⟨1, "A", "W", none, 5, 0, some 5⟩

/-- Stock row used by the multi-item rejection example: product B, 1 on hand. -/
def rowB : StockRow := ⟨2, "B", "W", none, 1, 0, some 1⟩

/-- Order-page database for the multi-item rejection example. -/
def exOrdersDB : OrdersDB := ⟨[rowA, rowB], [], [], 10⟩

/-- Items of the multi-item rejection example: one unit of A (in stock), then
two units of B (only one in stock). -/
def exItems : List OrderItem := [⟨"A", 1, 7, ""⟩, ⟨"B", 2, 7, ""⟩]

/-- Stock row with available_quantity exactly 0 (5 on hand, 5 reserved),
consistent with the generated column. -/
def rowZeroAvail : StockRow := ⟨1, "P", "W", none, 5, 5, some 0⟩

/-- Receipt-page database used by concrete instantiations. -/
def exReceiptsDB : ReceiptsDB := ⟨[rowA], [], [], 20, 30⟩

/-- Transfer-page database used by concrete instantiations. -/
def exTransfersDB : TransfersDB := ⟨[rowA], [], [], 40⟩

/-- Products-page database used by concrete instantiations: one product p1
referenced by an order item, one product p2 unreferenced with a stock row. -/
def exProductsDB : ProductsDB :=
  ⟨[⟨"p1", "widget"⟩, ⟨"p2", "gadget"⟩],
   [⟨7, "p2", "W", none, 4, 0, some 4⟩],
   [⟨1, "p1", 2, 9⟩], [], []⟩

/-! Auxiliary lemmas about the stock-deduction machinery. -/

theorem foldl_add_availOrQty (rows : List StockRow) (a : Int) :
    rows.foldl (fun acc s => acc + availOrQty s) a = a + (rows.map availOrQty).sum := by
  induction rows generalizing a with
  | nil => simp
  | cons s rest ih => simp [List.foldl_cons, ih, add_assoc]

theorem totalAvailable_eq (rows : List StockRow) :
    totalAvailable rows = (rows.map availOrQty).sum := by
  simpa [totalAvailable] using foldl_add_availOrQty rows 0

theorem availOrQty_le_quantity {s : StockRow} (h : RowWF s) : availOrQty s ≤ s.quantity := by
  obtain ⟨ha, hq, hr⟩ := h
  rw [availOrQty, ha, jsOr]
  split <;> omega

theorem deducts_nonpos (rows : List StockRow) {r : Int} (h : r ≤ 0) :
    deducts rows r = [] := by
  cases rows with
  | nil => rfl
  | cons s rest => simp [deducts, h]

theorem deducts_mem (rows : List StockRow) : ∀ (r : Int), ∀ u ∈ deducts rows r,
    u.1 ∈ rows ∧ 0 < u.2 ∧ u.2 ≤ availOrQty u.1 := by
  induction rows with
  | nil => intro r u hu; simp [deducts] at hu
  | cons s rest ih =>
    intro r u hu
    by_cases h0 : r ≤ 0
    · simp [deducts, h0] at hu
    · by_cases h1 : 0 < min r (availOrQty s)
      · simp only [deducts, if_neg h0, if_pos h1, List.mem_cons] at hu
        rcases hu with rfl | hu
        · exact ⟨List.mem_cons_self _ _, h1, min_le_right _ _⟩
        · obtain ⟨hm, hp, hle⟩ := ih _ u hu
          exact ⟨List.mem_cons_of_mem _ hm, hp, hle⟩
      · simp only [deducts, if_neg h0, if_neg h1] at hu
        obtain ⟨hm, hp, hle⟩ := ih _ u hu
        exact ⟨List.mem_cons_of_mem _ hm, hp, hle⟩

theorem deducts_fst_sublist (rows : List StockRow) : ∀ r : Int,
    ((deducts rows r).map Prod.fst).Sublist rows := by
  induction rows with
  | nil => intro r; simp [deducts]
  | cons s rest ih =>
    intro r
    by_cases h0 : r ≤ 0
    · simp [deducts, h0]
    · by_cases h1 : 0 < min r (availOrQty s)
      · simp only [deducts, if_neg h0, if_pos h1, List.map_cons]
        exact (ih _).cons₂ s
      · simp only [deducts, if_neg h0, if_neg h1]
        exact (ih r).cons s

theorem deducts_sum (rows : List StockRow) : ∀ r : Int, 0 ≤ r →
    r ≤ (rows.map availOrQty).sum → ((deducts rows r).map Prod.snd).sum = r := by
  induction rows with
  | nil =>
    intro r h0 hle
    simp only [List.map_nil, List.sum_nil] at hle
    have : r = 0 := le_antisymm hle h0
    simp [this, deducts]
  | cons s rest ih =>
    intro r h0 hle
    by_cases hr0 : r ≤ 0
    · have : r = 0 := le_antisymm hr0 h0
      simp [deducts, hr0, this]
    · rw [List.map_cons, List.sum_cons] at hle
      by_cases h1 : 0 < min r (availOrQty s)
      · simp only [deducts, if_neg hr0, if_pos h1, List.map_cons, List.sum_cons]
        rcases le_or_lt r (availOrQty s) with hra | har
        · rw [min_eq_left hra, deducts_nonpos rest (by omega)]
          simp
        · rw [min_eq_right (le_of_lt har)]
          rw [ih (r - availOrQty s) (by omega) (by omega)]
          ring
      · have ha : availOrQty s ≤ 0 := by
          by_contra hc
          exact h1 (lt_min (by omega) (by omega))
        simp only [deducts, if_neg hr0, if_neg h1]
        exact ih r h0 (by omega)

theorem updateQuantity_ids (store : List StockRow) (rowId : Nat) (q : Int) :
    storeIds (updateQuantity store rowId q) = storeIds store := by
  unfold storeIds updateQuantity
  rw [List.map_map]
  apply List.map_congr_left
  intro t _
  by_cases h : t.id = rowId <;> simp [h]

theorem updateQuantity_reserved (store : List StockRow) (rowId : Nat) (q : Int) :
    (updateQuantity store rowId q).map StockRow.reserved_quantity
      = store.map StockRow.reserved_quantity := by
  unfold updateQuantity
  rw [List.map_map]
  apply List.map_congr_left
  intro t _
  by_cases h : t.id = rowId <;> simp [h]

theorem mem_updateQuantity_of_ne {t : StockRow} {store : List StockRow} (ht : t ∈ store)
    {rowId : Nat} (hne : t.id ≠ rowId) (q : Int) : t ∈ updateQuantity store rowId q := by
  unfold updateQuantity
  refine List.mem_map.mpr ⟨t, ht, ?_⟩
  rw [if_neg hne]

theorem updateQuantity_not_mem {store : List StockRow} {rowId : Nat}
    (h : rowId ∉ storeIds store) (q : Int) : updateQuantity store rowId q = store := by
  unfold updateQuantity
  conv_rhs => rw [← List.map_id store]
  apply List.map_congr_left
  intro t ht
  rw [if_neg, id]
  intro hEq
  exact h (hEq ▸ List.mem_map_of_mem StockRow.id ht)

theorem sumQty_cons (t : StockRow) (rest : List StockRow) :
    sumQty (t :: rest) = t.quantity + sumQty rest := by
  simp [sumQty]

theorem updateQuantity_sum {store : List StockRow} (hnd : (storeIds store).Nodup)
    {s : StockRow} (hs : s ∈ store) (q : Int) :
    sumQty (updateQuantity store s.id q) = sumQty store - s.quantity + q := by
  induction store with
  | nil => cases hs
  | cons t rest ih =>
    have hnd' : (storeIds rest).Nodup := (List.nodup_cons.mp hnd).2
    have hhead : t.id ∉ storeIds rest := (List.nodup_cons.mp hnd).1
    rcases List.mem_cons.mp hs with rfl | hmem
    · have hrest : updateQuantity rest s.id q = rest := updateQuantity_not_mem hhead q
      show sumQty ((if s.id = s.id then _ else s) :: updateQuantity rest s.id q) = _
      rw [if_pos rfl, hrest, sumQty_cons, sumQty_cons]
      ring
    · have htne : t.id ≠ s.id := by
        intro hEq
        exact hhead (hEq ▸ List.mem_map_of_mem StockRow.id hmem)
      show sumQty ((if t.id = s.id then _ else t) :: updateQuantity rest s.id q) = _
      rw [if_neg htne, sumQty_cons, sumQty_cons, ih hnd' hmem]
      ring

theorem updateQuantity_wf {store : List StockRow} (hwf : ∀ t ∈ store, RowWF t)
    {q : Int} (hq : 0 ≤ q) (rowId : Nat) :
    ∀ t ∈ updateQuantity store rowId q, RowWF t := by
  intro t ht
  unfold updateQuantity at ht
  rcases List.mem_map.mp ht with ⟨x, hx, rfl⟩
  by_cases h : x.id = rowId
  · rw [if_pos h]
    exact ⟨rfl, hq, (hwf x hx).2.2⟩
  · rw [if_neg h]
    exact hwf x hx

theorem foldl_applyDeduct_ids (U : List (StockRow × Int)) : ∀ store : List StockRow,
    storeIds (U.foldl applyDeduct store) = storeIds store := by
  induction U with
  | nil => intro store; rfl
  | cons u U ih =>
    intro store
    rw [List.foldl_cons, ih, applyDeduct, updateQuantity_ids]

theorem foldl_applyDeduct_reserved (U : List (StockRow × Int)) : ∀ store : List StockRow,
    (U.foldl applyDeduct store).map StockRow.reserved_quantity
      = store.map StockRow.reserved_quantity := by
  induction U with
  | nil => intro store; rfl
  | cons u U ih =>
    intro store
    rw [List.foldl_cons, ih, applyDeduct, updateQuantity_reserved]

theorem foldl_applyDeduct_sum (U : List (StockRow × Int)) : ∀ store : List StockRow,
    (storeIds store).Nodup → (U.map (fun u => u.1.id)).Nodup →
    (∀ u ∈ U, u.1 ∈ store) →
    sumQty (U.foldl applyDeduct store) = sumQty store - (U.map Prod.snd).sum := by
  induction U with
  | nil => intro store _ _ _; simp
  | cons u U ih =>
    intro store hnd hUnd hmem
    rw [List.foldl_cons]
    have hu1 : u.1 ∈ store := hmem u (List.mem_cons_self _ _)
    have hUhead : u.1.id ∉ U.map (fun v => v.1.id) :=
      (List.nodup_cons.mp (by simpa using hUnd)).1
    have hUtail : (U.map (fun v => v.1.id)).Nodup :=
      (List.nodup_cons.mp (by simpa using hUnd)).2
    have h1 : sumQty (applyDeduct store u) = sumQty store - u.2 := by
      rw [applyDeduct, updateQuantity_sum hnd hu1]
      ring
    have hids : storeIds (applyDeduct store u) = storeIds store := by
      rw [applyDeduct, updateQuantity_ids]
    have hmem' : ∀ v ∈ U, v.1 ∈ applyDeduct store u := by
      intro v hv
      refine mem_updateQuantity_of_ne (hmem v (List.mem_cons_of_mem _ hv)) ?_ _
      intro hEq
      exact hUhead (hEq ▸ List.mem_map_of_mem (fun v => v.1.id) hv)
    rw [ih _ (hids ▸ hnd) hUtail hmem', h1, List.map_cons, List.sum_cons]
    ring

theorem foldl_applyDeduct_wf (U : List (StockRow × Int)) : ∀ store : List StockRow,
    (∀ t ∈ store, RowWF t) →
    (∀ u ∈ U, RowWF u.1 ∧ 0 < u.2 ∧ u.2 ≤ availOrQty u.1) →
    ∀ t ∈ U.foldl applyDeduct store, RowWF t := by
  induction U with
  | nil => intro store h _; exact h
  | cons u U ih =>
    intro store hwf hU
    rw [List.foldl_cons]
    apply ih
    · obtain ⟨hw, hpos, hle⟩ := hU u (List.mem_cons_self _ _)
      have hq := availOrQty_le_quantity hw
      exact updateQuantity_wf hwf (by omega) _
    · intro v hv
      exact hU v (List.mem_cons_of_mem _ hv)

/-- Unfolding equation for sellItem with the lets resolved. -/
theorem sellItem_eq (store : List StockRow) (warehouseId : String) (item : OrderItem) :
    sellItem store warehouseId item =
      if (store.filter (matchesSell item.product_id warehouseId)).length = 0 then
        (store, some (SellError.noStock item.product_id))
      else if totalAvailable (store.filter (matchesSell item.product_id warehouseId))
          < item.quantity then
        (store, some (SellError.insufficientStock item.product_id
          (totalAvailable (store.filter (matchesSell item.product_id warehouseId)))
          item.quantity))
      else
        ((deducts (store.filter (matchesSell item.product_id warehouseId))
            item.quantity).foldl applyDeduct store, none) := rfl

theorem sellItem_spec {store : List StockRow} {warehouseId : String} {item : OrderItem}
    (hwf : StoreWF store) (hq : 0 ≤ item.quantity)
    (hok : (sellItem store warehouseId item).2 = none) :
    sumQty (sellItem store warehouseId item).1 = sumQty store - item.quantity
    ∧ storeIds (sellItem store warehouseId item).1 = storeIds store
    ∧ (sellItem store warehouseId item).1.map StockRow.reserved_quantity
        = store.map StockRow.reserved_quantity
    ∧ StoreWF (sellItem store warehouseId item).1 := by
  obtain ⟨hrows, hnd⟩ := hwf
  rw [sellItem_eq] at hok ⊢
  set recs := store.filter (matchesSell item.product_id warehouseId) with hrecs
  by_cases h0 : recs.length = 0
  · rw [if_pos h0] at hok
    simp at hok
  · rw [if_neg h0] at hok ⊢
    by_cases h1 : totalAvailable recs < item.quantity
    · rw [if_pos h1] at hok
      simp at hok
    · rw [if_neg h1] at hok ⊢
      set U := deducts recs item.quantity with hU
      have hsub : (U.map Prod.fst).Sublist recs := deducts_fst_sublist recs item.quantity
      have hidsub : (U.map (fun u => u.1.id)).Sublist (storeIds store) := by
        have h2 : ((U.map Prod.fst).map StockRow.id).Sublist (recs.map StockRow.id) :=
          hsub.map StockRow.id

        have h3 : (recs.map StockRow.id).Sublist (storeIds store) :=
          (List.filter_sublist store).map StockRow.id
        rw [List.map_map] at h2
        exact h2.trans h3
      have hUnd : (U.map (fun u => u.1.id)).Nodup := hnd.sublist hidsub
      have hUmem : ∀ u ∈ U, u.1 ∈ store := by
        intro u hu
        exact List.mem_of_mem_filter (deducts_mem recs item.quantity u hu).1
      have hUprop : ∀ u ∈ U, RowWF u.1 ∧ 0 < u.2 ∧ u.2 ≤ availOrQty u.1 := by
        intro u hu
        obtain ⟨hm, hp, hle⟩ := deducts_mem recs item.quantity u hu
        exact ⟨hrows u.1 (List.mem_of_mem_filter hm), hp, hle⟩
      have hsumU : (U.map Prod.snd).sum = item.quantity := by
        refine deducts_sum recs item.quantity hq ?_
        rw [← totalAvailable_eq]
        omega
      refine ⟨?_, ?_, ?_, ?_, ?_⟩
      · rw [foldl_applyDeduct_sum U store hnd hUnd hUmem, hsumU]
      · exact foldl_applyDeduct_ids U store
      · exact foldl_applyDeduct_reserved U store
      · exact foldl_applyDeduct_wf U store hrows hUprop
      · show (storeIds (U.foldl applyDeduct store)).Nodup
        rw [foldl_applyDeduct_ids U store]
        exact hnd

theorem sellLoop_spec {warehouseId : String} : ∀ (items : List OrderItem)
    (store : List StockRow), StoreWF store → (∀ i ∈ items, 0 < i.quantity) →
    (sellLoop warehouseId store items).2 = none →
    sumQty (sellLoop warehouseId store items).1
        = sumQty store - (items.map OrderItem.quantity).sum
    ∧ (sellLoop warehouseId store items).1.map StockRow.reserved_quantity
        = store.map StockRow.reserved_quantity
    ∧ StoreWF (sellLoop warehouseId store items).1 := by
  intro items
  induction items with
  | nil =>
    intro store hwf _ _
    exact ⟨by simp [sellLoop], rfl, hwf⟩
  | cons item rest ih =>
    intro store hwf hq hok
    rcases hse : sellItem store warehouseId item with ⟨st, e⟩
    rw [sellLoop, hse] at hok ⊢
    cases e with
    | some err => simp at hok
    | none =>
      have hspec := sellItem_spec hwf (le_of_lt (hq item (List.mem_cons_self _ _)))
        (by rw [hse])
      rw [hse] at hspec
      obtain ⟨h1, _, h3, h4⟩ := hspec
      obtain ⟨g1, g2, g3⟩ := ih st h4 (fun i hi => hq i (List.mem_cons_of_mem _ hi)) hok
      refine ⟨?_, ?_, g3⟩
      · rw [g1, h1, List.map_cons, List.sum_cons]
        ring
      · rw [g2, h3]

theorem sellLoop_append {warehouseId : String} : ∀ (pre rest : List OrderItem)
    (store st1 : List StockRow), sellLoop warehouseId store pre = (st1, none) →
    sellLoop warehouseId store (pre ++ rest) = sellLoop warehouseId st1 rest := by
  intro pre
  induction pre with
  | nil =>
    intro rest store st1 h
    rw [sellLoop] at h
    injection h with h1 _
    rw [List.nil_append, h1]
  | cons item pre ih =>
    intro rest store st1 h
    rcases hse : sellItem store warehouseId item with ⟨st, e⟩
    rw [sellLoop, hse] at h
    cases e with
    | some err => simp at h
    | none =>
      rw [List.cons_append, sellLoop, hse]
      exact ih rest st st1 h

theorem isValidItem_quantity {i : OrderItem} (h : isValidItem i = true) : 0 < i.quantity := by
  unfold isValidItem at h
  simp only [Bool.and_eq_true, decide_eq_true_eq] at h
  exact h.2

theorem sumAvail_eq (store : List StockRow) :
    sumAvail store = sumQty store - (store.map StockRow.reserved_quantity).sum := by
  induction store with
  | nil => simp [sumAvail, sumQty]
  | cons t rest ih =>
    simp only [sumAvail, sumQty, List.map_cons, List.sum_cons] at ih ⊢
    omega

/-- Unfolding of the sales path of orderSubmit: when some valid item exists
and a warehouse is selected, the handler inserts the order and its items and
runs the deduction loop. -/
theorem orderSubmit_sales {db : OrdersDB} {warehouseId : String}
    (orderNumber uid : String) {items : List OrderItem} (hwh : warehouseId ≠ "")
    (hlen : ¬(items.filter isValidItem).length = 0) :
    orderSubmit db "sales" warehouseId orderNumber uid items =
      ((⟨(sellLoop warehouseId db.stock (items.filter isValidItem)).1,
         db.orders ++ [⟨db.nextOrderId, orderNumber, "sales", uid⟩],
         db.order_items ++ (items.filter isValidItem).map
           (fun i => ⟨db.nextOrderId, i.product_id, i.quantity, i.unit_price⟩),
         db.nextOrderId + 1⟩ : OrdersDB),
       (sellLoop warehouseId db.stock (items.filter isValidItem)).2.map
         SubmitError.sell) := by
  simp only [orderSubmit]
  rw [if_neg hlen, if_neg (fun h => hwh h.2), if_pos ⟨trivial, hwh⟩]

theorem receiveStock_sum {store : List StockRow} (hnd : (storeIds store).Nodup)
    (warehouseId : String) (item : ReceiptItem) (freshId : Nat) :
    sumQty (receiveStock store warehouseId item freshId) = sumQty store + item.quantity := by
  unfold receiveStock
  cases hf : store.find? (matchesReceipt item warehouseId) with
  | none => simp [sumQty]
  | some ex =>
    have hmem : ex ∈ store := List.mem_of_find?_eq_some hf
    rw [updateQuantity_sum hnd hmem]
    ring

theorem receiveStock_ids (store : List StockRow) (warehouseId : String)
    (item : ReceiptItem) (freshId : Nat) :
    storeIds (receiveStock store warehouseId item freshId) = storeIds store
    ∨ storeIds (receiveStock store warehouseId item freshId) = storeIds store ++ [freshId] := by
  unfold receiveStock
  cases hf : store.find? (matchesReceipt item warehouseId) with
  | some ex => exact Or.inl (updateQuantity_ids store ex.id _)
  | none =>
    right
    simp [storeIds]

theorem receiveStock_inv {store : List StockRow} {n : Nat}
    (hnd : (storeIds store).Nodup) (hb : IdsBound store n)
    (warehouseId : String) (item : ReceiptItem) :
    (storeIds (receiveStock store warehouseId item n)).Nodup
    ∧ IdsBound (receiveStock store warehouseId item n) (n + 1) := by
  rcases receiveStock_ids store warehouseId item n with h | h
  · rw [IdsBound, h]
    exact ⟨hnd, fun i hi => Nat.lt_succ_of_lt (hb i hi)⟩
  · rw [IdsBound, h]
    constructor
    · rw [List.nodup_append]
      refine ⟨hnd, List.nodup_singleton n, ?_⟩
      intro a ha hb'
      rw [List.mem_singleton] at hb'
      exact absurd (hb a ha) (by omega)
    · intro i hi
      rcases List.mem_append.mp hi with hi | hi
      · exact Nat.lt_succ_of_lt (hb i hi)
      · rw [List.mem_singleton] at hi
        omega

theorem receiveItems_spec (warehouseId : String) (rid : Nat) : ∀ (items : List ReceiptItem)
    (db : ReceiptsDB), (storeIds db.stock).Nodup → IdsBound db.stock db.nextStockId →
    sumQty (receiveItems warehouseId rid db items).stock
        = sumQty db.stock + (items.map ReceiptItem.quantity).sum
    ∧ (receiveItems warehouseId rid db items).receipt_items
        = db.receipt_items ++ items.map (fun i =>
            (⟨rid, i.product_id,
              (if i.location_id = "" then none else some i.location_id), i.quantity⟩ :
              ReceiptItemRow))
    ∧ (receiveItems warehouseId rid db items).receipts = db.receipts := by
  intro items
  induction items with
  | nil =>
    intro db hnd hb
    exact ⟨by simp [receiveItems], by simp [receiveItems], rfl⟩
  | cons item rest ih =>
    intro db hnd hb
    rw [receiveItems]
    obtain ⟨hnd1, hb1⟩ := receiveStock_inv hnd hb warehouseId item
    obtain ⟨g1, g2, g3⟩ := ih
      { db with
        receipt_items := db.receipt_items ++ [⟨rid, item.product_id,
          (if item.location_id = "" then none else some item.location_id), item.quantity⟩]
        stock := receiveStock db.stock warehouseId item db.nextStockId
        nextStockId := db.nextStockId + 1 }
      hnd1 hb1
    refine ⟨?_, ?_, g3⟩
    · rw [g1]
      show sumQty (receiveStock db.stock warehouseId item db.nextStockId) + _ = _
      rw [receiveStock_sum hnd warehouseId item db.nextStockId, List.map_cons,
        List.sum_cons]
      ring
    · rw [g2]
      show (db.receipt_items ++ [_]) ++ _ = _
      rw [List.append_assoc, List.singleton_append, List.map_cons]

theorem receiveItems_items (warehouseId : String) (rid : Nat) : ∀ (items : List ReceiptItem)
    (db : ReceiptsDB),
    (receiveItems warehouseId rid db items).receipt_items
      = db.receipt_items ++ items.map (fun i =>
          (⟨rid, i.product_id,
            (if i.location_id = "" then none else some i.location_id), i.quantity⟩ :
            ReceiptItemRow)) := by
  intro items
  induction items with
  | nil =>
    intro db
    simp [receiveItems]
  | cons item rest ih =>
    intro db
    rw [receiveItems, ih]
    show (db.receipt_items ++ [_]) ++ _ = _
    rw [List.append_assoc, List.singleton_append, List.map_cons]

theorem receiveStock_cases (store : List StockRow) (wh : String) (item : ReceiptItem)
    (fid : Nat) :
    (∀ ex, store.find? (matchesReceipt item wh) = some ex →
      receiveStock store wh item fid
        = updateQuantity store ex.id (ex.quantity + item.quantity))
    ∧ (store.find? (matchesReceipt item wh) = none →
        receiveStock store wh item fid
          = store ++ [⟨fid, item.product_id, wh,
              (if item.location_id = "" then none else some item.location_id),
              item.quantity, 0, some item.quantity⟩]) := by
  constructor
  · intro ex hf
    unfold receiveStock
    rw [hf]
  · intro hf
    unfold receiveStock
    rw [hf]

/-! Claim theorems. -/

/-- C1 (amended): when processing a Sell submission reaches a line item whose
total_available over the stock rows fetched for it at that point is below the
requested quantity, the submission is rejected — with the insufficient-stock
error naming the product, the available total and the required quantity when
at least one stock row was fetched, and with the distinct no-stock error
naming only the product when none was — and neither the failing line item nor
any later one mutates a stock row: the stock table is exactly as the
preceding line items left it.  (The original claim's stronger "no stock row
is mutated" fails for submissions whose earlier line items succeeded, and in
the zero-fetched-rows case the error names neither the available total nor
the shortfall; see the counterexample.) -/
theorem c1_insufficient_stock_rejection
    (db : OrdersDB) (warehouseId orderNumber uid : String)
    (pre post : List OrderItem) (bad : OrderItem) (st1 : List StockRow)
    (hvalid : ∀ i ∈ pre ++ bad :: post, isValidItem i = true)
    (hwh : warehouseId ≠ "")
    (hpre : sellLoop warehouseId db.stock pre = (st1, none))
    (hins : totalAvailable (st1.filter (matchesSell bad.product_id warehouseId))
        < bad.quantity) :
    (orderSubmit db "sales" warehouseId orderNumber uid (pre ++ bad :: post)).2
        = some (SubmitError.sell
            (if (st1.filter (matchesSell bad.product_id warehouseId)).length = 0 then
              SellError.noStock bad.product_id
            else
              SellError.insufficientStock bad.product_id
                (totalAvailable (st1.filter (matchesSell bad.product_id warehouseId)))
                bad.quantity))
    ∧ (orderSubmit db "sales" warehouseId orderNumber uid (pre ++ bad :: post)).1.stock
        = st1 := by
  have hfilter : (pre ++ bad :: post).filter isValidItem = pre ++ bad :: post :=
    List.filter_eq_self.mpr hvalid
  have hlen : ¬((pre ++ bad :: post).filter isValidItem).length = 0 := by
    rw [hfilter]
    simp
  rw [orderSubmit_sales orderNumber uid hwh hlen, hfilter,
    sellLoop_append pre (bad :: post) db.stock st1 hpre]
  by_cases hne : (st1.filter (matchesSell bad.product_id warehouseId)).length = 0
  · have hbad : sellItem st1 warehouseId bad
        = (st1, some (SellError.noStock bad.product_id)) := by
      rw [sellItem_eq, if_pos hne]
    rw [sellLoop, hbad, if_pos hne]
    exact ⟨rfl, rfl⟩
  · have hbad : sellItem st1 warehouseId bad
        = (st1, some (SellError.insufficientStock bad.product_id
            (totalAvailable (st1.filter (matchesSell bad.product_id warehouseId)))
            bad.quantity)) := by
      rw [sellItem_eq, if_neg hne, if_pos hins]
    rw [sellLoop, hbad, if_neg hne]
    exact ⟨rfl, rfl⟩

/-- C1 witness: two concrete instantiations.  First, a two-item submission
(one unit of product A in stock, then two units of product B with only one
available): the preceding item left stock row A at quantity 4 and the
submission is rejected at item B with the insufficient-stock error, the stock
exactly as item A left it.  Second, a one-item submission for product C with
no stock rows at all (fetched total 0 below the requested 2): rejected with
the no-stock error, the stock untouched. -/
theorem c1_insufficient_stock_rejection_witness :
    ((orderSubmit exOrdersDB "sales" "W" "ORD-1" "u"
        ([⟨"A", 1, 7, ""⟩] ++ ⟨"B", 2, 7, ""⟩ :: [])).2
        = some (SubmitError.sell
            (if ((([⟨1, "A", "W", none, 4, 0, some 4⟩, rowB] : List StockRow).filter
                (matchesSell "B" "W")).length = 0) then
              SellError.noStock "B"
            else
              SellError.insufficientStock "B"
                (totalAvailable (([⟨1, "A", "W", none, 4, 0, some 4⟩, rowB] :
                  List StockRow).filter (matchesSell "B" "W"))) 2))
      ∧ (orderSubmit exOrdersDB "sales" "W" "ORD-1" "u"
          ([⟨"A", 1, 7, ""⟩] ++ ⟨"B", 2, 7, ""⟩ :: [])).1.stock
          = [⟨1, "A", "W", none, 4, 0, some 4⟩, rowB])
    ∧ ((orderSubmit exOrdersDB "sales" "W" "ORD-4" "u"
        ([] ++ ⟨"C", 2, 7, ""⟩ :: [])).2
        = some (SubmitError.sell
            (if ((exOrdersDB.stock.filter (matchesSell "C" "W")).length = 0) then
              SellError.noStock "C"
            else
              SellError.insufficientStock "C"
                (totalAvailable (exOrdersDB.stock.filter (matchesSell "C" "W"))) 2))
      ∧ (orderSubmit exOrdersDB "sales" "W" "ORD-4" "u"
          ([] ++ ⟨"C", 2, 7, ""⟩ :: [])).1.stock = exOrdersDB.stock) :=
  ⟨c1_insufficient_stock_rejection exOrdersDB "W" "ORD-1" "u"
     [⟨"A", 1, 7, ""⟩] [] ⟨"B", 2, 7, ""⟩ [⟨1, "A", "W", none, 4, 0, some 4⟩, rowB]
     (by decide) (by decide) (by decide) (by decide),
   c1_insufficient_stock_rejection exOrdersDB "W" "ORD-4" "u"
     [] [] ⟨"C", 2, 7, ""⟩ exOrdersDB.stock
     (by decide) (by decide) (by decide) (by decide)⟩

/-- C1 counterexample to the claim as stated, in both respects.  First, a
Sell submission containing a line item (two units of B, one available) with
total_available below the requested quantity is rejected with the
insufficient-stock error, yet a stock row has been mutated (row A went from 5
to 4), because the first line item was already applied when the second
failed.  Second, a submission selling two units of product C, for which the
fetch returns no stock rows at all — so the claim's total_available, the sum
over the fetched rows, is 0 and below the requested 2 — is rejected with the
distinct no-stock error, which names neither the available total nor the
shortfall, not with an insufficient-stock error. -/
theorem c1_counterexample_stock_mutated :
    ((orderSubmit exOrdersDB "sales" "W" "ORD-1" "u" exItems).2
        = some (SubmitError.sell (SellError.insufficientStock "B" 1 2))
      ∧ (orderSubmit exOrdersDB "sales" "W" "ORD-1" "u" exItems).1.stock
          ≠ exOrdersDB.stock)
    ∧ (totalAvailable (exOrdersDB.stock.filter (matchesSell "C" "W")) = 0
      ∧ (orderSubmit exOrdersDB "sales" "W" "ORD-4" "u" [⟨"C", 2, 7, ""⟩]).2
          = some (SubmitError.sell (SellError.noStock "C"))
      ∧ (orderSubmit exOrdersDB "sales" "W" "ORD-4" "u" [⟨"C", 2, 7, ""⟩]).1.stock
          = exOrdersDB.stock) := by
  decide

/-- C2: for a Sell submission over a consistent stock table in which every
line item is valid and the whole submission succeeds (equivalently, every
line item found sufficient stock at its processing time), the total available
quantity across the stock table drops by exactly the total requested
quantity, and no stock row is left with a negative quantity. -/
theorem c2_sell_conservation
    (db : OrdersDB) (warehouseId orderNumber uid : String) (items : List OrderItem)
    (hwf : StoreWF db.stock)
    (hvalid : ∀ i ∈ items, isValidItem i = true)
    (hwh : warehouseId ≠ "")
    (hok : (orderSubmit db "sales" warehouseId orderNumber uid items).2 = none) :
    sumAvail (orderSubmit db "sales" warehouseId orderNumber uid items).1.stock
        = sumAvail db.stock - (items.map OrderItem.quantity).sum
    ∧ ∀ t ∈ (orderSubmit db "sales" warehouseId orderNumber uid items).1.stock,
        0 ≤ t.quantity := by
  have hfilter : items.filter isValidItem = items := List.filter_eq_self.mpr hvalid
  by_cases hlen : (items.filter isValidItem).length = 0
  · rw [orderSubmit] at hok
    rw [if_pos hlen] at hok
    simp at hok
  · rw [orderSubmit_sales orderNumber uid hwh hlen, hfilter] at hok ⊢
    have hloopok : (sellLoop warehouseId db.stock items).2 = none := by
      cases h : (sellLoop warehouseId db.stock items).2 with
      | none => rfl
      | some e => rw [h] at hok; simp at hok
    obtain ⟨h1, h2, h3⟩ := sellLoop_spec items db.stock hwf
      (fun i hi => isValidItem_quantity (hvalid i hi)) hloopok
    constructor
    · show sumAvail (sellLoop warehouseId db.stock items).1 = _
      rw [sumAvail_eq, sumAvail_eq, h1, h2]
      ring
    · intro t ht
      exact (h3.1 t ht).2.1

/-- C2 witness: selling three units of product A from a warehouse holding
five drops total availability by three and leaves no negative quantity. -/
theorem c2_sell_conservation_witness :
    sumAvail (orderSubmit exOrdersDB "sales" "W" "ORD-2" "u" [⟨"A", 3, 7, ""⟩]).1.stock
        = sumAvail exOrdersDB.stock - (([⟨"A", 3, 7, ""⟩] : List OrderItem).map
            OrderItem.quantity).sum
    ∧ ∀ t ∈ (orderSubmit exOrdersDB "sales" "W" "ORD-2" "u" [⟨"A", 3, 7, ""⟩]).1.stock,
        0 ≤ t.quantity :=
  c2_sell_conservation exOrdersDB "W" "ORD-2" "u" [⟨"A", 3, 7, ""⟩]
    (by decide) (by decide) (by decide) (by decide)

/-- C3: the deduction is greedy over the fetched rows in store order: the
loop stops as soon as the remaining need is no longer positive, each row
contributes min of the remaining need and its available-or-quantity (rows
contributing a non-positive amount are skipped without a write); on the
specification scenario (locA holds 5, locB holds 3, sell 6) the result is
locA at 0 and locB at 2. -/
theorem c3_greedy_deduction :
    (∀ (rows : List StockRow) (r : Int), r ≤ 0 → deducts rows r = [])
    ∧ (∀ (s : StockRow) (rest : List StockRow) (r : Int), 0 < r →
        deducts (s :: rest) r =
          if 0 < min r (availOrQty s) then
            (s, min r (availOrQty s)) :: deducts rest (r - min r (availOrQty s))
          else deducts rest r)
    ∧ sellItem [stockLocA, stockLocB] "W" ⟨"P", 6, 100, ""⟩
        = ([⟨1, "P", "W", some "locA", 0, 0, some 0⟩,
            ⟨2, "P", "W", some "locB", 2, 0, some 2⟩], none) := by
  refine ⟨fun rows r h => deducts_nonpos rows h, ?_, by decide⟩
  intro s rest r hr
  simp only [deducts, if_neg (not_le.mpr hr)]

/-- C3 witness: instantiation of the loop-characterisation conjuncts at
concrete inputs (the scenario conjunct is already closed). -/
theorem c3_greedy_deduction_witness :
    deducts [stockLocA] (-1) = []
    ∧ deducts (stockLocA :: [stockLocB]) 6 =
        (if 0 < min 6 (availOrQty stockLocA) then
          (stockLocA, min 6 (availOrQty stockLocA)) ::
            deducts [stockLocB] (6 - min 6 (availOrQty stockLocA))
        else deducts [stockLocB] 6) :=
  ⟨c3_greedy_deduction.1 [stockLocA] (-1) (by decide),
   c3_greedy_deduction.2.1 stockLocA [stockLocB] 6 (by decide)⟩

/-- C4 (amended): the pre-check value totalAvailable is the sum over the
fetched rows of the JavaScript logical-or combination
available_quantity || quantity, which falls back to the row's quantity when
available_quantity is null OR exactly zero; it agrees with the
nullish-coalescing combination available_quantity ?? quantity of the claim
whenever no fetched row has available_quantity exactly zero. -/
theorem c4_total_available_logical_or (rows : List StockRow) :
    totalAvailable rows
        = (rows.map (fun s => jsOr s.available_quantity s.quantity)).sum
    ∧ ((∀ s ∈ rows, s.available_quantity ≠ some 0) →
        totalAvailable rows = specTotalAvailable rows) := by
  refine ⟨totalAvailable_eq rows, fun h => ?_⟩
  rw [totalAvailable_eq, specTotalAvailable]
  congr 1
  apply List.map_congr_left
  intro s hs
  unfold availOrQty jsOr
  cases ha : s.available_quantity with
  | none => simp
  | some v =>
    have hv : ¬v = 0 := fun hv => h s hs (by rw [ha, hv])
    simp [hv]

/-- C4 witness: on a row with nonzero available_quantity the code's
totalAvailable agrees with the nullish-coalescing reading. -/
theorem c4_total_available_logical_or_witness :
    totalAvailable [rowA] = specTotalAvailable [rowA] :=
  (c4_total_available_logical_or [rowA]).2 (by decide)

/-- C4 counterexample to the claim as stated: a stock row with quantity 5
fully reserved has available_quantity exactly 0 (consistent with the
generated column), the code's totalAvailable falls back to quantity and
yields 5, while the nullish-coalescing sum of the claim yields 0. -/
theorem c4_counterexample_zero_available :
    RowWF rowZeroAvail
    ∧ totalAvailable [rowZeroAvail] = 5
    ∧ specTotalAvailable [rowZeroAvail] = 0
    ∧ totalAvailable [rowZeroAvail] ≠ specTotalAvailable [rowZeroAvail] := by
  decide

/-- C5: a Receive submission (consistent ids, warehouse selected, every line
item valid, at least one item) succeeds; each line item either adds its
quantity to the existing stock row matching (product, warehouse,
location-or-null) or, absent such a row, inserts a new row with
quantity = item.quantity and reserved_quantity = 0; consequently the total
on-hand quantity increases by exactly the sum of the submitted line-item
quantities. -/
theorem c5_receive_conservation
    (db : ReceiptsDB) (warehouseId receiptNumber uid : String) (items : List ReceiptItem)
    (hnd : (storeIds db.stock).Nodup) (hb : IdsBound db.stock db.nextStockId)
    (hwh : warehouseId ≠ "")
    (hvalid : ∀ i ∈ items, isValidReceiptItem i = true)
    (hne : items ≠ []) :
    (receiptSubmit db warehouseId receiptNumber uid items).2 = none
    ∧ sumQty (receiptSubmit db warehouseId receiptNumber uid items).1.stock
        = sumQty db.stock + (items.map ReceiptItem.quantity).sum
    ∧ (∀ (store : List StockRow) (wh : String) (item : ReceiptItem) (fid : Nat),
        (∀ ex, store.find? (matchesReceipt item wh) = some ex →
          receiveStock store wh item fid
            = updateQuantity store ex.id (ex.quantity + item.quantity))
        ∧ (store.find? (matchesReceipt item wh) = none →
            receiveStock store wh item fid
              = store ++ [⟨fid, item.product_id, wh,
                  (if item.location_id = "" then none else some item.location_id),
                  item.quantity, 0, some item.quantity⟩])) := by
  have hfilter : items.filter isValidReceiptItem = items := List.filter_eq_self.mpr hvalid
  have hlen : ¬(items.filter isValidReceiptItem).length = 0 := by
    rw [hfilter]
    simpa using hne
  simp only [receiptSubmit]
  rw [if_neg hwh, if_neg hlen, hfilter]
  obtain ⟨g1, _, _⟩ := receiveItems_spec warehouseId db.nextReceiptId items
    { db with
      receipts := db.receipts ++ [⟨db.nextReceiptId, receiptNumber, warehouseId, uid⟩]
      nextReceiptId := db.nextReceiptId + 1 }
    hnd hb
  exact ⟨rfl, g1, fun store wh item fid => receiveStock_cases store wh item fid⟩

/-- C5 witness: receiving two units of A (existing row) and three units of C
(no row, insert) raises the total on-hand quantity by five. -/
theorem c5_receive_conservation_witness :
    (receiptSubmit exReceiptsDB "W" "RCV-1" "u"
        [⟨"A", "", 2, ""⟩, ⟨"C", "L1", 3, ""⟩]).2 = none
    ∧ sumQty (receiptSubmit exReceiptsDB "W" "RCV-1" "u"
        [⟨"A", "", 2, ""⟩, ⟨"C", "L1", 3, ""⟩]).1.stock
        = sumQty exReceiptsDB.stock
            + (([⟨"A", "", 2, ""⟩, ⟨"C", "L1", 3, ""⟩] : List ReceiptItem).map
                ReceiptItem.quantity).sum
    ∧ (∀ (store : List StockRow) (wh : String) (item : ReceiptItem) (fid : Nat),
        (∀ ex, store.find? (matchesReceipt item wh) = some ex →
          receiveStock store wh item fid
            = updateQuantity store ex.id (ex.quantity + item.quantity))
        ∧ (store.find? (matchesReceipt item wh) = none →
            receiveStock store wh item fid
              = store ++ [⟨fid, item.product_id, wh,
                  (if item.location_id = "" then none else some item.location_id),
                  item.quantity, 0, some item.quantity⟩])) :=
  c5_receive_conservation exReceiptsDB "W" "RCV-1" "u"
    [⟨"A", "", 2, ""⟩, ⟨"C", "L1", 3, ""⟩]
    (by decide) (by decide) (by decide) (by decide) (by decide)

/-- C6: creating a Transfer never touches the stock table — in every outcome
the stock rows are unchanged — and on success exactly the transfer record and
its transfer-item records are appended. -/
theorem c6_transfer_stock_frame
    (db : TransfersDB) (fromWarehouseId toWarehouseId transferNumber uid : String)
    (items : List TransferItem) :
    (transferSubmit db fromWarehouseId toWarehouseId transferNumber uid items).1.stock
        = db.stock
    ∧ ((transferSubmit db fromWarehouseId toWarehouseId transferNumber uid items).2 = none →
        (transferSubmit db fromWarehouseId toWarehouseId transferNumber uid
            items).1.transfers
          = db.transfers ++ [⟨db.nextTransferId, transferNumber, fromWarehouseId,
              toWarehouseId, uid⟩]
        ∧ (transferSubmit db fromWarehouseId toWarehouseId transferNumber uid
            items).1.transfer_items
          = db.transfer_items ++ (items.filter isValidTransferItem).map (fun i =>
              ⟨db.nextTransferId, i.product_id,
               (if i.from_location_id = "" then none else some i.from_location_id),
               (if i.to_location_id = "" then none else some i.to_location_id),
               i.quantity⟩)) := by
  unfold transferSubmit
  split_ifs <;> simp
  split_ifs <;> simp

/-- C6 witness: instantiation of the success conjunct at a concrete
transfer. -/
theorem c6_transfer_stock_frame_witness :
    (transferSubmit exTransfersDB "W" "V" "TRF-1" "u" [⟨"A", "", "", 2, ""⟩]).1.stock
        = exTransfersDB.stock
    ∧ (transferSubmit exTransfersDB "W" "V" "TRF-1" "u"
        [⟨"A", "", "", 2, ""⟩]).1.transfers
        = exTransfersDB.transfers ++ [⟨exTransfersDB.nextTransferId, "TRF-1", "W", "V", "u"⟩] :=
  ⟨(c6_transfer_stock_frame exTransfersDB "W" "V" "TRF-1" "u" [⟨"A", "", "", 2, ""⟩]).1,
   ((c6_transfer_stock_frame exTransfersDB "W" "V" "TRF-1" "u"
      [⟨"A", "", "", 2, ""⟩]).2 (by decide)).1⟩

/-- C7: a Transfer submission whose source and destination warehouse ids are
equal is rejected before any write: the whole database slice is unchanged,
an error is reported, and when the id is nonempty the error is the
same-warehouse rejection (with an empty id the earlier missing-warehouse
check fires, still before any write). -/
theorem c7_same_warehouse_rejected
    (db : TransfersDB) (w transferNumber uid : String) (items : List TransferItem) :
    (transferSubmit db w w transferNumber uid items).1 = db
    ∧ (transferSubmit db w w transferNumber uid items).2.isSome = true
    ∧ (w ≠ "" → (transferSubmit db w w transferNumber uid items).2
        = some TransferError.sameWarehouse) := by
  unfold transferSubmit
  by_cases hw : w = ""
  · rw [if_pos (Or.inl hw)]
    exact ⟨rfl, rfl, fun h => absurd hw h⟩
  · rw [if_neg (by simp [hw]), if_pos rfl]
    exact ⟨rfl, rfl, fun _ => rfl⟩

/-- C7 witness: a concrete same-warehouse submission is rejected with the
same-warehouse error and changes nothing. -/
theorem c7_same_warehouse_rejected_witness :
    (transferSubmit exTransfersDB "W" "W" "TRF-2" "u" [⟨"A", "", "", 2, ""⟩]).1
        = exTransfersDB
    ∧ (transferSubmit exTransfersDB "W" "W" "TRF-2" "u"
        [⟨"A", "", "", 2, ""⟩]).2 = some TransferError.sameWarehouse :=
  ⟨(c7_same_warehouse_rejected exTransfersDB "W" "TRF-2" "u" [⟨"A", "", "", 2, ""⟩]).1,
   (c7_same_warehouse_rejected exTransfersDB "W" "TRF-2" "u"
      [⟨"A", "", "", 2, ""⟩]).2.2 (by decide)⟩

/-- C8: deleting a product referenced by any order, receipt or transfer item
is rejected and deletes nothing; deleting an unreferenced product succeeds,
removes the product row and exactly its stock rows, and touches no item
table. -/
theorem c8_product_delete
    (db : ProductsDB) (pid : String) :
    (referencedBy db pid = true →
      (handleDeleteConfirm db pid).1 = db
      ∧ (handleDeleteConfirm db pid).2.isSome = true)
    ∧ (referencedBy db pid = false →
      (handleDeleteConfirm db pid).2 = none
      ∧ (handleDeleteConfirm db pid).1.products
          = db.products.filter (fun p => !(p.id == pid))
      ∧ (handleDeleteConfirm db pid).1.stock
          = db.stock.filter (fun s => !(s.product_id == pid))
      ∧ (∀ s ∈ (handleDeleteConfirm db pid).1.stock, s.product_id ≠ pid)
      ∧ (handleDeleteConfirm db pid).1.order_items = db.order_items
      ∧ (handleDeleteConfirm db pid).1.receipt_items = db.receipt_items
      ∧ (handleDeleteConfirm db pid).1.transfer_items = db.transfer_items) := by
  unfold referencedBy handleDeleteConfirm
  by_cases h1 : db.order_items.any (fun i => i.product_id == pid)
  · rw [if_pos h1]
    constructor
    · intro _
      exact ⟨rfl, rfl⟩
    · intro h
      rw [h1] at h
      simp at h
  · rw [if_neg h1]
    by_cases h2 : db.receipt_items.any (fun i => i.product_id == pid)
    · rw [if_pos h2]
      constructor
      · intro _
        exact ⟨rfl, rfl⟩
      · intro h
        rw [h2] at h
        simp at h
    · rw [if_neg h2]
      by_cases h3 : db.transfer_items.any (fun i => i.product_id == pid)
      · rw [if_pos h3]
        constructor
        · intro _
          exact ⟨rfl, rfl⟩
        · intro h
          rw [h3] at h
          simp at h
      · rw [if_neg h3]
        constructor
        · intro h
          rw [Bool.not_eq_true] at h1 h2 h3
          rw [h1, h2, h3] at h
          simp at h
        · intro _
          refine ⟨rfl, rfl, rfl, ?_, rfl, rfl, rfl⟩
          intro s hs
          have := List.of_mem_filter hs
          simpa using this

/-- C8 witness: in a concrete database, deleting the referenced product p1 is
rejected unchanged, and deleting the unreferenced product p2 succeeds and
removes its stock row. -/
theorem c8_product_delete_witness :
    ((handleDeleteConfirm exProductsDB "p1").1 = exProductsDB
      ∧ (handleDeleteConfirm exProductsDB "p1").2.isSome = true)
    ∧ ((handleDeleteConfirm exProductsDB "p2").2 = none
      ∧ (handleDeleteConfirm exProductsDB "p2").1.stock
          = exProductsDB.stock.filter (fun s => !(s.product_id == "p2"))) :=
  ⟨(c8_product_delete exProductsDB "p1").1 (by decide),
   ⟨((c8_product_delete exProductsDB "p2").2 (by decide)).1,
    ((c8_product_delete exProductsDB "p2").2 (by decide)).2.2.1⟩⟩

/-- C9: the monthly sales-trend aggregation credits each month with the sum
of its line-item revenues (quantity times unit_price): two same-month orders
with revenues 100 and 250 yield that month's entry with revenue 350 (and
order count 2), and a single order carrying two line items of revenues 100
and 250 yields revenue 350 (order count 1). -/
theorem c9_monthly_revenue :
    (∀ o1 o2 : SalesOrder, monthKey o2 = monthKey o1 →
        orderRevenue o1 = 100 → orderRevenue o2 = 250 →
        (salesTrendData [o1, o2]).lookup (monthKey o1)
          = some ⟨350, 2⟩)
    ∧ (∀ (o : SalesOrder) (i1 i2 : SalesOrderItem),
        i1.quantity * i1.unit_price = 100 → i2.quantity * i2.unit_price = 250 →
        o.order_items = [i1, i2] →
        (salesTrendData [o]).lookup (monthKey o) = some ⟨350, 1⟩) := by
  constructor
  · intro o1 o2 hm h1 h2
    simp [salesTrendData, accumOrder, hm, h1, h2, List.lookup]
  · intro o i1 i2 h1 h2 ho
    have hr : orderRevenue o = 350 := by
      rw [orderRevenue, ho]
      simp [h1, h2]
    simp [salesTrendData, accumOrder, hr, List.lookup]

/-- C9 witness: two concrete August 2025 sales orders with line-item
revenues 100 (1 unit at 100) and 250 (2 units at 125) produce the month
entry with revenue 350, and one order carrying both line items likewise. -/
theorem c9_monthly_revenue_witness :
    (salesTrendData [⟨1, 2025, 8, [⟨1, 100⟩]⟩, ⟨2, 2025, 8, [⟨2, 125⟩]⟩]).lookup
        (monthKey ⟨1, 2025, 8, [⟨1, 100⟩]⟩) = some ⟨350, 2⟩
    ∧ (salesTrendData [⟨3, 2025, 9, [⟨1, 100⟩, ⟨2, 125⟩]⟩]).lookup
        (monthKey ⟨3, 2025, 9, [⟨1, 100⟩, ⟨2, 125⟩]⟩) = some ⟨350, 1⟩ :=
  ⟨c9_monthly_revenue.1 ⟨1, 2025, 8, [⟨1, 100⟩]⟩ ⟨2, 2025, 8, [⟨2, 125⟩]⟩
     (by decide) (by decide) (by decide),
   c9_monthly_revenue.2 ⟨3, 2025, 9, [⟨1, 100⟩, ⟨2, 125⟩]⟩ ⟨1, 100⟩ ⟨2, 125⟩
     (by decide) (by decide) (by decide)⟩

/-- C10: in all three submission flows, line items with an empty product id
or a non-positive quantity are silently dropped before any write: the
lacking-items rejection fires exactly when no valid item remains (given that
the flow's earlier warehouse checks pass), a submission with no valid items
changes nothing, and the item rows written come exactly from the surviving
valid items. -/
theorem c10_valid_item_filtering :
    (∀ (db : OrdersDB) (orderType warehouseId orderNumber uid : String)
        (items : List OrderItem),
        ((orderSubmit db orderType warehouseId orderNumber uid items).2
            = some SubmitError.noValidItems ↔ items.filter isValidItem = [])
        ∧ (items.filter isValidItem = [] →
            (orderSubmit db orderType warehouseId orderNumber uid items).1 = db)
        ∧ (¬(orderType = "sales" ∧ warehouseId = "") →
            (orderSubmit db orderType warehouseId orderNumber uid items).1.order_items
              = db.order_items ++ (items.filter isValidItem).map
                  (fun i => ⟨db.nextOrderId, i.product_id, i.quantity, i.unit_price⟩)))
    ∧ (∀ (db : ReceiptsDB) (warehouseId receiptNumber uid : String)
        (items : List ReceiptItem), warehouseId ≠ "" →
        ((receiptSubmit db warehouseId receiptNumber uid items).2
            = some SubmitError.noValidItems ↔ items.filter isValidReceiptItem = [])
        ∧ (items.filter isValidReceiptItem = [] →
            (receiptSubmit db warehouseId receiptNumber uid items).1 = db)
        ∧ (receiptSubmit db warehouseId receiptNumber uid items).1.receipt_items
            = db.receipt_items ++ (items.filter isValidReceiptItem).map (fun i =>
                ⟨db.nextReceiptId, i.product_id,
                 (if i.location_id = "" then none else some i.location_id), i.quantity⟩))
    ∧ (∀ (db : TransfersDB) (f t tn uid : String) (items : List TransferItem),
        f ≠ "" → t ≠ "" → f ≠ t →
        ((transferSubmit db f t tn uid items).2 = some TransferError.noValidItems
            ↔ items.filter isValidTransferItem = [])
        ∧ (items.filter isValidTransferItem = [] →
            (transferSubmit db f t tn uid items).1 = db)
        ∧ (transferSubmit db f t tn uid items).1.transfer_items
            = db.transfer_items ++ (items.filter isValidTransferItem).map (fun i =>
                ⟨db.nextTransferId, i.product_id,
                 (if i.from_location_id = "" then none else some i.from_location_id),
                 (if i.to_location_id = "" then none else some i.to_location_id),
                 i.quantity⟩)) := by
  refine ⟨?_, ?_, ?_⟩
  · intro db orderType warehouseId orderNumber uid items
    by_cases hlen : (items.filter isValidItem).length = 0
    · have hnil : items.filter isValidItem = [] := List.length_eq_zero.mp hlen
      unfold orderSubmit
      rw [if_pos hlen]
      refine ⟨by simp [hnil], fun _ => rfl, fun _ => by simp [hnil]⟩
    · have hnil : ¬items.filter isValidItem = [] := fun h => hlen (by rw [h]; rfl)
      unfold orderSubmit
      rw [if_neg hlen]
      by_cases hsw : orderType = "sales" ∧ warehouseId = ""
      · rw [if_pos hsw]
        refine ⟨by simp [hnil], fun h => absurd h hnil, fun h => absurd hsw h⟩
      · rw [if_neg hsw]
        by_cases hs2 : orderType = "sales" ∧ warehouseId ≠ ""
        · rw [if_pos hs2]
          refine ⟨?_, fun h => absurd h hnil, fun _ => rfl⟩
          constructor
          · intro h
            have h' : (sellLoop warehouseId db.stock (items.filter isValidItem)).2.map
                SubmitError.sell = some SubmitError.noValidItems := h
            rcases he : (sellLoop warehouseId db.stock (items.filter isValidItem)).2
              with _ | e
            · rw [he] at h'
              simp at h'
            · rw [he] at h'
              simp at h'
          · intro h
            exact absurd h hnil
        · rw [if_neg hs2]
          exact ⟨by simp [hnil], fun h => absurd h hnil, fun _ => rfl⟩
  · intro db warehouseId receiptNumber uid items hwh
    unfold receiptSubmit
    rw [if_neg hwh]
    by_cases hlen : (items.filter isValidReceiptItem).length = 0
    · have hnil : items.filter isValidReceiptItem = [] := List.length_eq_zero.mp hlen
      rw [if_pos hlen]
      refine ⟨by simp [hnil], fun _ => rfl, by simp [hnil]⟩
    · have hnil : ¬items.filter isValidReceiptItem = [] := fun h => hlen (by rw [h]; rfl)
      rw [if_neg hlen]
      refine ⟨by simp [hnil], fun h => absurd h hnil, ?_⟩
      exact receiveItems_items warehouseId db.nextReceiptId (items.filter isValidReceiptItem)
        { db with
          receipts := db.receipts ++ [⟨db.nextReceiptId, receiptNumber, warehouseId, uid⟩]
          nextReceiptId := db.nextReceiptId + 1 }
  · intro db f t tn uid items hf ht hft
    unfold transferSubmit
    rw [if_neg (by simp [hf, ht]), if_neg hft]
    by_cases hlen : (items.filter isValidTransferItem).length = 0
    · have hnil : items.filter isValidTransferItem = [] := List.length_eq_zero.mp hlen
      rw [if_pos hlen]
      refine ⟨by simp [hnil], fun _ => rfl, by simp [hnil]⟩
    · have hnil : ¬items.filter isValidTransferItem = [] := fun h => hlen (by rw [h]; rfl)
      rw [if_neg hlen]
      exact ⟨by simp [hnil], fun h => absurd h hnil, rfl⟩

/-- C10 witness: concrete instantiations of all three flows with a mix of
valid and invalid line items (empty product id, zero quantity). -/
theorem c10_valid_item_filtering_witness :
    ((orderSubmit exOrdersDB "purchase" "" "ORD-3" "u"
        [⟨"", 5, 1, ""⟩, ⟨"A", 0, 1, ""⟩]).2 = some SubmitError.noValidItems
      ↔ ([⟨"", 5, 1, ""⟩, ⟨"A", 0, 1, ""⟩] : List OrderItem).filter isValidItem = [])
    ∧ (receiptSubmit exReceiptsDB "W" "RCV-2" "u"
        [⟨"A", "", 2, ""⟩, ⟨"", "", 3, ""⟩]).1.receipt_items
        = exReceiptsDB.receipt_items
            ++ (([⟨"A", "", 2, ""⟩, ⟨"", "", 3, ""⟩] : List ReceiptItem).filter
                isValidReceiptItem).map (fun i =>
                  ⟨exReceiptsDB.nextReceiptId, i.product_id,
                   (if i.location_id = "" then none else some i.location_id), i.quantity⟩)
    ∧ (([⟨"A", "", "", 0, ""⟩] : List TransferItem).filter isValidTransferItem = [] →
        (transferSubmit exTransfersDB "W" "V" "TRF-3" "u" [⟨"A", "", "", 0, ""⟩]).1
          = exTransfersDB) :=
  ⟨(c10_valid_item_filtering.1 exOrdersDB "purchase" "" "ORD-3" "u"
      [⟨"", 5, 1, ""⟩, ⟨"A", 0, 1, ""⟩]).1,
   (c10_valid_item_filtering.2.1 exReceiptsDB "W" "RCV-2" "u"
      [⟨"A", "", 2, ""⟩, ⟨"", "", 3, ""⟩] (by decide)).2.2,
   (c10_valid_item_filtering.2.2 exTransfersDB "W" "V" "TRF-3" "u"
      [⟨"A", "", "", 0, ""⟩] (by decide) (by decide) (by decide)).2.1⟩

end StockMaster
